import Mathlib

/-
  Shallow embedding of libssh src/libssh/client.c (client-side SSH transport
  bring-up engine).

  External collaborators (socket layer, packet layer, big-number DH
  primitives, crypto context manager) are not part of src/; their observable
  outcomes at each call site are supplied by an `Env` record of result codes,
  following the interfaces described in the specification.  Heap-allocated
  `ssh_string` objects are modelled by numeric identifiers together with a
  list of live identifiers and a list of zero-wiped ("burned") identifiers,
  so that wipe/release obligations are expressible.  Crypto contexts are
  likewise modelled by identifiers with a freshness counter.
-/

/-- Return code SSH_OK of the C sources. -/
def SSH_OK : Int := 0

/-- Return code SSH_ERROR of the C sources. -/
def SSH_ERROR : Int := -1

/-- The session states of `enum ssh_session_state_e` used by client.c. -/
inductive SessionState where
  | NONE
  | CONNECTING
  | SOCKET_CONNECTED
  | BANNER_RECEIVED
  | INITIAL_KEX
  | AUTHENTICATING
  | ERROR
  deriving DecidableEq

/-- The DH handshake states of `enum ssh_dh_state_e` (client.c lines 250-257). -/
inductive DhState where
  | INIT
  | INIT_TO_SEND
  | INIT_SENT
  | NEWKEYS_TO_SEND
  | NEWKEYS_SENT
  | FINISHED
  deriving DecidableEq

/-- The rebindable socket `data` callback: banner reader before the banner is
received, packet dispatcher afterwards (client.c line 554 and 635). -/
inductive DataCB where
  | BannerReader
  | PacketDispatcher
  deriving DecidableEq

/-- The `ssh_session` fields read or written by client.c, plus bookkeeping for
the modelled heap of `ssh_string` and `CRYPTO` objects. -/
structure Session where
  session_state : SessionState := SessionState.NONE
  dh_handshake_state : DhState := DhState.INIT
  serverbanner : Option (List Char) := none
  clientbanner : Option (List Char) := none
  xbanner : Option (List Char) := none
  banner : Option (List Char) := none
  version : Nat := 0
  ssh1 : Nat := 1
  ssh2 : Nat := 1
  openssh : Nat := 0
  alive : Nat := 0
  client : Nat := 0
  connected : Nat := 0
  fd : Int := 0
  host : Option String := none
  socket_open : Bool := false
  data_callback : DataCB := DataCB.BannerReader
  dh_server_signature : Option Nat := none
  current_crypto : Option Nat := none
  next_crypto : Option Nat := none
  lastError : Option String := none
  live_strings : List Nat := []
  burned : List Nat := []
  next_id : Nat := 0
  crypto_next_id : Nat := 0
  freed_cryptos : List Nat := []
  deriving DecidableEq

/-- Modelled from the spec: outcomes of the external collaborators called by
client.c (socket adapter, packet layer, KEX negotiator, DH primitives, crypto
context manager).  Each field is the result the named call site observes; the
code under src/ only branches on these results. -/
structure Env where
  ssh_init_rc : Int := 0
  socket_connect_rc : Int := 0
  strdup_clientbanner_ok : Bool := true
  socket_write_rc : Int := 0
  blocking_flush_rc : Int := 0
  get_kex1_rc : Int := 0
  set_kex_rc : Int := 0
  send_kex_rc : Int := 0
  add_kexdh_init_rc : Int := 0
  dh_generate_x_rc : Int := 0
  dh_generate_e_rc : Int := 0
  dh_get_e_ok : Bool := true
  add_e_rc : Int := 0
  packet_send1_rc : Int := 0
  packet_flush1_rc : Int := 0
  packet_wait_reply_rc : Int := 0
  pubkey_present : Bool := true
  f_present : Bool := true
  dh_import_f_rc : Int := 0
  signature_present : Bool := true
  dh_build_k_rc : Int := 0
  add_newkeys_rc : Int := 0
  packet_send2_rc : Int := 0
  packet_flush2_rc : Int := 0
  packet_wait_newkeys_rc : Int := 0
  make_sessionid_rc : Int := 0
  crypt_set_algorithms_rc : Int := 0
  generate_session_keys_rc : Int := 0
  signature_verify_rc : Int := 0
  crypto_new_ok : Bool := true
  packet_event : Session → Session := fun s => s

/-- C-string indexing: reading past the end of the stored characters yields the
terminating NUL byte. -/
def cstrGet (s : List Char) (i : Nat) : Char := s.getD i '\x00'

/-- C `strncmp` restricted to what client.c uses: compares at most `n`
characters, stopping at a NUL terminator. -/
def strncmp : List Char → List Char → Nat → Int
  | _, _, 0 => 0
  | a, b, n + 1 =>
    if cstrGet a 0 ≠ cstrGet b 0 then
      ((cstrGet a 0).toNat : Int) - ((cstrGet b 0).toNat : Int)
    else if cstrGet a 0 = '\x00' then 0
    else strncmp (a.drop 1) (b.drop 1) n

/-- C `strstr`: index of the first occurrence of `needle` in the haystack, or
`none` when it does not occur. -/
def strstrIdx : List Char → List Char → Option Nat
  | [], needle => if needle.isPrefixOf ([] : List Char) then some 0 else none
  | c :: t, needle =>
    if needle.isPrefixOf (c :: t) then some 0
    else (strstrIdx t needle).map Nat.succ

/-- Value of a maximal leading decimal-digit run (helper for `strtol10`). -/
def digitsVal : List Char → Nat → Nat
  | [], acc => acc
  | c :: t, acc => if c.isDigit then digitsVal t (acc * 10 + (c.toNat - 48)) else acc

/-- C `strtol(p, NULL, 10)`: skip leading whitespace and an optional sign, then
read a maximal run of decimal digits (empty run gives 0). -/
def strtol10 (s : List Char) : Int :=
  let s1 := s.dropWhile (fun c => c == ' ' || c == '\x09' || c == '\x0a' ||
    c == '\x0b' || c == '\x0c' || c == '\x0d')
  match s1 with
  | '-' :: t => -(digitsVal t 0 : Int)
  | '+' :: t => (digitsVal t 0 : Int)
  | _ => (digitsVal s1 0 : Int)

/-- The `SSH_VERSION_INT(a, b, c)` macro: `(a << 16) | (b << 8) | c`. -/
def SSH_VERSION_INT (a b c : Nat) : Nat := (a <<< 16) ||| (b <<< 8) ||| c

/-- The literal "SSH-" compared against the banner head. -/
def sshDash : List Char := ['S', 'S', 'H', '-']

/-- The literal "OpenSSH" searched for inside the banner. -/
def needleOpenSSH : List Char := ['O', 'p', 'e', 'n', 'S', 'S', 'H']

/-- OpenSSH version extraction of ssh_analyze_banner (client.c lines 182-191):
if "OpenSSH" occurs, `strtol` is run at offsets +8 and +10 from the occurrence
and the result is stored as `SSH_VERSION_INT(major, minor, 0)`. -/
def opensshParse (bannerChars : List Char) (s : Session) : Session :=
  match strstrIdx bannerChars needleOpenSSH with
  | none => s
  | some i =>
    let major := strtol10 (bannerChars.drop (i + 8))
    let minor := strtol10 (bannerChars.drop (i + 10))
    { s with openssh := SSH_VERSION_INT major.toNat minor.toNat 0 }

/-- ssh_analyze_banner (client.c lines 147-194).  The C out-parameters `*ssh1`
and `*ssh2` become the first component (`none` models the -1 return, where
neither flag has been written); the session carries the `openssh` update. -/
def ssh_analyze_banner (bannerChars : List Char) (s : Session) :
    Option (Nat × Nat) × Session :=
  if strncmp bannerChars sshDash 4 ≠ 0 then (none, s)
  else if cstrGet bannerChars 4 = '1' then
    let flags := if cstrGet bannerChars 6 = '9' then (1, 1) else (1, 0)
    (some flags, opensshParse bannerChars s)
  else if cstrGet bannerChars 4 = '2' then
    (some (0, 1), opensshParse bannerChars s)
  else (none, s)

/-- Modelled from the spec: `CLIENTBANNER1`, the client banner constant for
protocol version 1 (defined in the missing header priv.h). -/
def CLIENTBANNER1 : List Char := "SSH-1.5-libssh".toList

/-- Modelled from the spec: `CLIENTBANNER2`, the client banner constant for
protocol version 2 (defined in the missing header priv.h). -/
def CLIENTBANNER2 : List Char := "SSH-2.0-libssh".toList

/-- ssh_send_banner for the client path (client.c lines 205-248, with
`server = 0`): choose the banner (override or per-version constant), store it
as `clientbanner`, then write and flush through the socket adapter. -/
def ssh_send_banner (env : Env) (s : Session) : Int × Session :=
  let b := match s.xbanner with
           | some xb => xb
           | none => if s.version = 1 then CLIENTBANNER1 else CLIENTBANNER2
  if env.strdup_clientbanner_ok = false then (-1, { s with clientbanner := none })
  else
    let s1 := { s with clientbanner := some b }
    if env.socket_write_rc = SSH_ERROR then (-1, s1)
    else if env.blocking_flush_rc ≠ SSH_OK then (-1, s1)
    else (0, s1)

/-- Local `ssh_string` variables of dh_handshake (client.c lines 260-263). -/
structure DhLocals where
  e : Option Nat := none
  f : Option Nat := none
  pubkey : Option Nat := none
  signature : Option Nat := none
  deriving DecidableEq

/-- string_burn followed by string_free on one modelled string: the identifier
is recorded as zero-wiped and removed from the live set. -/
def burnFree (id : Nat) (s : Session) : Session :=
  { s with burned := id :: s.burned,
           live_strings := s.live_strings.filter (fun j => j != id) }

/-- The `error:` label of dh_handshake (client.c lines 435-451): every still
non-NULL local string is zero-wiped and released. -/
def dh_cleanup (l : DhLocals) (s : Session) : Session :=
  let s1 := match l.e with | some id => burnFree id s | none => s
  let s2 := match l.f with | some id => burnFree id s1 | none => s1
  let s3 := match l.pubkey with | some id => burnFree id s2 | none => s2
  match l.signature with | some id => burnFree id s3 | none => s3

/-- The `goto error` exit of dh_handshake: clean the locals and return `rc`. -/
def dh_error (l : DhLocals) (rc : Int) (s : Session) : Int × Session :=
  (rc, dh_cleanup l s)

/-- The DH_STATE_INIT stage of dh_handshake (client.c lines 269-298): append
KEXDH_INIT, generate `x` and `e`, append `e` (then wipe and free it), enqueue
the packet, and advance to DH_STATE_INIT_TO_SEND. -/
def dh_init (env : Env) (s : Session) (l : DhLocals) :
    Sum (Int × Session) (Session × DhLocals) :=
  if env.add_kexdh_init_rc < 0 then Sum.inl (dh_error l SSH_ERROR s)
  else if env.dh_generate_x_rc < 0 then Sum.inl (dh_error l SSH_ERROR s)
  else if env.dh_generate_e_rc < 0 then Sum.inl (dh_error l SSH_ERROR s)
  else if env.dh_get_e_ok = false then Sum.inl (dh_error l SSH_ERROR s)
  else
    let eid := s.next_id
    let sA := { s with live_strings := eid :: s.live_strings, next_id := eid + 1 }
    let l1 := { l with e := some eid }
    if env.add_e_rc < 0 then Sum.inl (dh_error l1 SSH_ERROR sA)
    else
      let sB := burnFree eid sA
      let l2 := { l1 with e := none }
      if env.packet_send1_rc = SSH_ERROR then Sum.inl (dh_error l2 env.packet_send1_rc sB)
      else Sum.inr ({ sB with dh_handshake_state := DhState.INIT_TO_SEND }, l2)

/-- The DH_STATE_INIT_TO_SEND stage (client.c lines 299-304): flush the
outbound queue and advance to DH_STATE_INIT_SENT. -/
def dh_init_to_send (env : Env) (s : Session) (l : DhLocals) :
    Sum (Int × Session) (Session × DhLocals) :=
  if env.packet_flush1_rc ≠ SSH_OK then Sum.inl (dh_error l env.packet_flush1_rc s)
  else Sum.inr ({ s with dh_handshake_state := DhState.INIT_SENT }, l)

/-- The DH_STATE_INIT_SENT stage (client.c lines 305-357): await KEXDH_REPLY,
take `pubkey`, `f` and `signature` from the packet, import `pubkey` and `f`
(wiping and freeing `f`), remember the signature in `dh_server_signature`,
build `k`, enqueue NEWKEYS, and advance to DH_STATE_NEWKEYS_TO_SEND.
dh_import_pubkey is modelled from the spec (the DH module is not under src/)
as importing the host key without retaining the string. -/
def dh_init_sent (env : Env) (s : Session) (l : DhLocals) :
    Sum (Int × Session) (Session × DhLocals) :=
  if env.packet_wait_reply_rc ≠ SSH_OK then Sum.inl (dh_error l env.packet_wait_reply_rc s)
  else if env.pubkey_present = false then Sum.inl (dh_error l SSH_ERROR s)
  else
    let pid := s.next_id
    let sA := { s with live_strings := pid :: s.live_strings, next_id := pid + 1 }
    let l1 := { l with pubkey := some pid }
    if env.f_present = false then Sum.inl (dh_error l1 SSH_ERROR sA)
    else
      let fid := sA.next_id
      let sB := { sA with live_strings := fid :: sA.live_strings, next_id := fid + 1 }
      let l2 := { l1 with f := some fid }
      if env.dh_import_f_rc < 0 then Sum.inl (dh_error l2 SSH_ERROR sB)
      else
        let sC := burnFree fid sB
        let l3 := { l2 with f := none }
        if env.signature_present = false then Sum.inl (dh_error l3 SSH_ERROR sC)
        else
          let gid := sC.next_id
          let sD := { sC with live_strings := gid :: sC.live_strings,
                              next_id := gid + 1,
                              dh_server_signature := some gid }
          let l4 := { l3 with signature := some gid }
          if env.dh_build_k_rc < 0 then Sum.inl (dh_error l4 SSH_ERROR sD)
          else if env.add_newkeys_rc < 0 then Sum.inl (dh_error l4 SSH_ERROR sD)
          else if env.packet_send2_rc = SSH_ERROR then
            Sum.inl (dh_error l4 env.packet_send2_rc sD)
          else Sum.inr ({ sD with dh_handshake_state := DhState.NEWKEYS_TO_SEND }, l4)

/-- The DH_STATE_NEWKEYS_TO_SEND stage (client.c lines 358-365): flush and
advance to DH_STATE_NEWKEYS_SENT. -/
def dh_newkeys_to_send (env : Env) (s : Session) (l : DhLocals) :
    Sum (Int × Session) (Session × DhLocals) :=
  if env.packet_flush2_rc ≠ SSH_OK then Sum.inl (dh_error l env.packet_flush2_rc s)
  else Sum.inr ({ s with dh_handshake_state := DhState.NEWKEYS_SENT }, l)

/-- The DH_STATE_NEWKEYS_SENT stage (client.c lines 366-425): await NEWKEYS,
derive the session id and keys, verify the host signature (taking it out of
`dh_server_signature` first), wipe and release the signature, rotate
`current_crypto`/`next_crypto`, allocate a fresh `next_crypto`, and finish. -/
def dh_newkeys_sent (env : Env) (s : Session) (l : DhLocals) : Int × Session :=
  if env.packet_wait_newkeys_rc ≠ SSH_OK then dh_error l env.packet_wait_newkeys_rc s
  else if env.make_sessionid_rc ≠ SSH_OK then dh_error l env.make_sessionid_rc s
  else if env.crypt_set_algorithms_rc ≠ 0 then dh_error l SSH_ERROR s
  else if env.generate_session_keys_rc < 0 then dh_error l SSH_ERROR s
  else if env.signature_verify_rc ≠ 0 then
    dh_error { l with signature := s.dh_server_signature } SSH_ERROR
      { s with dh_server_signature := none }
  else
    -- The success path composes, in source order: take the signature out and
    -- wipe/release it (lines 393-403), free the old current_crypto (408-411),
    -- swap current_crypto <- next_crypto (414), allocate a fresh next_crypto
    -- (416).  The record update below is that composition, field by field.
    if env.crypto_new_ok = false then
      dh_error { l with signature := none } SSH_ERROR
        { s with dh_server_signature := none,
                 burned := (match s.dh_server_signature with
                            | some sid => sid :: s.burned
                            | none => s.burned),
                 live_strings := (match s.dh_server_signature with
                            | some sid => s.live_strings.filter (fun j => j != sid)
                            | none => s.live_strings),
                 freed_cryptos := (match s.current_crypto with
                            | some c => c :: s.freed_cryptos
                            | none => s.freed_cryptos),
                 current_crypto := s.next_crypto,
                 next_crypto := none }
    else
      (SSH_OK,
       { s with dh_server_signature := none,
                burned := (match s.dh_server_signature with
                           | some sid => sid :: s.burned
                           | none => s.burned),
                live_strings := (match s.dh_server_signature with
                           | some sid => s.live_strings.filter (fun j => j != sid)
                           | none => s.live_strings),
                freed_cryptos := (match s.current_crypto with
                           | some c => c :: s.freed_cryptos
                           | none => s.freed_cryptos),
                current_crypto := s.next_crypto,
                next_crypto := some s.crypto_next_id,
                crypto_next_id := s.crypto_next_id + 1,
                dh_handshake_state := DhState.FINISHED })

/-- Fall-through suffix of dh_handshake starting at DH_STATE_NEWKEYS_TO_SEND. -/
def dh_chain3 (env : Env) (s : Session) (l : DhLocals) : Int × Session :=
  match dh_newkeys_to_send env s l with
  | Sum.inl r => r
  | Sum.inr (s1, l1) => dh_newkeys_sent env s1 l1

/-- Fall-through suffix of dh_handshake starting at DH_STATE_INIT_SENT. -/
def dh_chain2 (env : Env) (s : Session) (l : DhLocals) : Int × Session :=
  match dh_init_sent env s l with
  | Sum.inl r => r
  | Sum.inr (s1, l1) => dh_chain3 env s1 l1

/-- Fall-through suffix of dh_handshake starting at DH_STATE_INIT_TO_SEND. -/
def dh_chain1 (env : Env) (s : Session) (l : DhLocals) : Int × Session :=
  match dh_init_to_send env s l with
  | Sum.inl r => r
  | Sum.inr (s1, l1) => dh_chain2 env s1 l1

/-- Fall-through suffix of dh_handshake starting at DH_STATE_INIT. -/
def dh_chain0 (env : Env) (s : Session) (l : DhLocals) : Int × Session :=
  match dh_init env s l with
  | Sum.inl r => r
  | Sum.inr (s1, l1) => dh_chain1 env s1 l1

/-- dh_handshake (client.c lines 259-455): enters the switch at the current
state and falls through; the default case (hit at DH_STATE_FINISHED) records an
"Invalid state" error and returns SSH_ERROR. -/
def dh_handshake (env : Env) (s : Session) : Int × Session :=
  match s.dh_handshake_state with
  | DhState.INIT => dh_chain0 env s {}
  | DhState.INIT_TO_SEND => dh_chain1 env s {}
  | DhState.INIT_SENT => dh_chain2 env s {}
  | DhState.NEWKEYS_TO_SEND => dh_chain3 env s {}
  | DhState.NEWKEYS_SENT => dh_newkeys_sent env s {}
  | DhState.FINISHED =>
    (SSH_ERROR, { s with lastError := some "Invalid state in dh_handshake" })

/-- The `error:` label of connection_callback (client.c lines 597-601): close
the socket, clear `alive`, and enter the absorbing ERROR state. -/
def cc_error (s : Session) : Session :=
  { s with socket_open := false, alive := 0, session_state := SessionState.ERROR }

/-- connection_callback (client.c lines 522-602): dispatch on the session
state.  On BANNER_RECEIVED the banner is analyzed, the protocol version is
resolved (v2 preferred), the socket data callback is rebound to the packet
dispatcher, the client banner is sent (its result is ignored, as in the C),
and the state advances to INITIAL_KEX.  On INITIAL_KEX the (v2) key exchange
and DH handshake run, after which the state becomes AUTHENTICATING. -/
def connection_callback (env : Env) (s : Session) : Session :=
  match s.session_state with
  | SessionState.NONE => s
  | SessionState.CONNECTING => s
  | SessionState.SOCKET_CONNECTED => s
  | SessionState.BANNER_RECEIVED =>
    (match s.serverbanner with
     | none => cc_error s
     | some bannerChars =>
       match ssh_analyze_banner bannerChars s with
       | (none, s1) => cc_error s1
       | (some (r1, r2), s1) =>
         let cont := fun (s2 : Session) =>
           let s3 := { s2 with data_callback := DataCB.PacketDispatcher }
           let s4 := (ssh_send_banner env s3).2
           { s4 with session_state := SessionState.INITIAL_KEX }
         if r2 ≠ 0 ∧ s1.ssh2 ≠ 0 then cont { s1 with version := 2 }
         else if r1 ≠ 0 ∧ s1.ssh1 ≠ 0 then cont { s1 with version := 1 }
         else cc_error { s1 with lastError := some "No version of SSH protocol usable" })
  | SessionState.INITIAL_KEX =>
    (if s.version = 2 then
       if env.set_kex_rc < 0 then cc_error s
       else if env.send_kex_rc < 0 then cc_error s
       else
         let r := dh_handshake env s
         if r.1 < 0 then cc_error r.2
         else { r.2 with connected := 1, session_state := SessionState.AUTHENTICATING }
     else if s.version = 1 then
       if env.get_kex1_rc < 0 then cc_error s
       else { s with connected := 1, session_state := SessionState.AUTHENTICATING }
     else { s with session_state := SessionState.AUTHENTICATING })
  | SessionState.AUTHENTICATING => s
  | SessionState.ERROR => { s with lastError := some "Invalid state" }

/-- Scan loop of callback_receive_banner (client.c lines 101-128): `rest` is
the unprocessed tail of the input, `i` the index of its head, `acc` the
already-scanned prefix with CR bytes normalized in place to NUL.  On LF the
line is strdup-ed (stopping at the first NUL), stored as the server banner,
the state becomes BANNER_RECEIVED and connection_callback runs; past index 127
without LF the session fails with the too-large-banner error. -/
def crbGo (env : Env) : List Char → Nat → List Char → Session → Nat × Session
  | [], _, _, s => (0, s)
  | c :: rest, i, acc, s =>
    if (if c = '\x0d' then '\x00' else c) = '\x0a' then
      (i + 1, connection_callback env
        { s with serverbanner := some (acc.takeWhile (fun ch => ch != '\x00')),
                 session_state := SessionState.BANNER_RECEIVED })
    else if i > 127 then
      (0, { s with session_state := SessionState.ERROR,
                   lastError := some "Receiving banner: too large banner" })
    else crbGo env rest (i + 1) (acc ++ [if c = '\x0d' then '\x00' else c]) s

/-- callback_receive_banner (client.c lines 94-131): returns the number of
consumed bytes (0 when the banner is incomplete) and the updated session. -/
def callback_receive_banner (env : Env) (dataBytes : List Char) (s : Session) :
    Nat × Session :=
  crbGo env dataBytes 0 [] s

/-- socket_callback_connected (client.c lines 54-66). -/
def socket_callback_connected (env : Env) (ok : Bool) (s : Session) : Session :=
  let s1 := if ok then { s with session_state := SessionState.SOCKET_CONNECTED }
            else { s with session_state := SessionState.ERROR,
                          lastError := some "Connection failed" }
  connection_callback env s1

/-- socket_callback_exception (client.c lines 73-81). -/
def socket_callback_exception (env : Env) (s : Session) : Session :=
  connection_callback env
    { s with session_state := SessionState.ERROR, lastError := some "Socket error" }

/-- One socket event delivered by the adapter while ssh_handle_packets runs. -/
inductive Event where
  | connectedOk
  | connectedErr
  | exception
  | dataRecv (bytes : List Char)

/-- Dispatch of one socket event into the installed callbacks; the data path
honours the rebindable `data` callback. -/
def handleEvent (env : Env) (e : Event) (s : Session) : Session :=
  match e with
  | Event.connectedOk => socket_callback_connected env true s
  | Event.connectedErr => socket_callback_connected env false s
  | Event.exception => socket_callback_exception env s
  | Event.dataRecv bytes =>
    match s.data_callback with
    | DataCB.BannerReader => (callback_receive_banner env bytes s).2
    | DataCB.PacketDispatcher => env.packet_event s

/-- The drive loop of ssh_connect (client.c lines 655-661): handle events until
the state is ERROR or AUTHENTICATING; `none` models a loop that never exits
because no further events arrive. -/
def driveLoop (env : Env) : List Event → Session → Option Session
  | [], s =>
    if s.session_state = SessionState.ERROR ∨
       s.session_state = SessionState.AUTHENTICATING then some s else none
  | e :: rest, s =>
    if s.session_state = SessionState.ERROR ∨
       s.session_state = SessionState.AUTHENTICATING then some s
    else driveLoop env rest (handleEvent env e s)

/-- ssh_connect for a non-NULL session (client.c lines 610-664), driven by the
given list of socket events: initialize, validate fd/host, install the
callbacks, connect, then run the drive loop; after the loop the C returns 0
unconditionally (line 663). -/
def ssh_connect (env : Env) (events : List Event) (s : Session) :
    Option (Int × Session) :=
  let s0 := { s with alive := 0, client := 1 }
  if env.ssh_init_rc < 0 then some (SSH_ERROR, s0)
  else if s0.fd = -1 ∧ s0.host = none then
    some (SSH_ERROR, { s0 with lastError := some "Hostname required" })
  else
    let s1 := { s0 with session_state := SessionState.CONNECTING,
                        data_callback := DataCB.BannerReader }
    let ret := if s1.fd ≠ -1 then SSH_OK else env.socket_connect_rc
    if ret ≠ SSH_OK then some (SSH_ERROR, s1)
    else
      let s2 := { s1 with alive := 1, socket_open := true }
      match driveLoop env events s2 with
      | none => none
      | some sF => some ((0 : Int), sF)

/-- Outcomes of the external calls made by ssh_disconnect. -/
structure DiscEnv where
  add_u8_rc : Int := 0
  add_u32_rc : Int := 0
  str_ok : Bool := true
  add_str_rc : Int := 0

/-- ssh_disconnect for a non-NULL session (client.c lines 708-744): if the
socket is open, compose and best-effort-send the DISCONNECT message and close
the socket; any failure while composing jumps to the `error:` label, which
lies after the `session->alive = 0;` statement. -/
def ssh_disconnect (env : DiscEnv) (s : Session) : Session :=
  if s.socket_open then
    if env.add_u8_rc < 0 then s
    else if env.add_u32_rc < 0 then s
    else if env.str_ok = false then s
    else if env.add_str_rc < 0 then s
    else { s with socket_open := false, alive := 0 }
  else { s with alive := 0 }

/-- ssh_get_issue_banner (client.c lines 676-682) over a possibly-NULL
session. -/
def ssh_get_issue_banner (so : Option Session) : Option (List Char) :=
  match so with
  | none => none
  | some s => match s.banner with
              | none => none
              | some b => some b

/-- ssh_get_openssh_version (client.c lines 694-700) over a possibly-NULL
session. -/
def ssh_get_openssh_version (so : Option Session) : Nat :=
  match so with
  | none => 0
  | some s => s.openssh

/-- Modelled from the spec: the spec sentence for the OpenSSH version parse
reads the characters at offsets +8 and +10 from the "OpenSSH" occurrence as
one-digit decimal fields and stores `(major << 16) | (minor << 8)`. -/
def spec_openssh_one_digit (bannerChars : List Char) : Nat :=
  match strstrIdx bannerChars needleOpenSSH with
  | none => 0
  | some i =>
    let major := if (cstrGet bannerChars (i + 8)).isDigit
                 then (cstrGet bannerChars (i + 8)).toNat - 48 else 0
    let minor := if (cstrGet bannerChars (i + 10)).isDigit
                 then (cstrGet bannerChars (i + 10)).toNat - 48 else 0
    SSH_VERSION_INT major minor 0

/-- All-success environment used by the concrete evaluations. -/
def envC : Env := {}

/-- A fresh session as the caller hands it to ssh_connect (fd pre-opened). -/
def sInit : Session := {}

/-- Claim C10: the public accessors tolerate a NULL session:
ssh_get_openssh_version(NULL) returns 0 and ssh_get_issue_banner(NULL)
returns NULL. -/
theorem null_session_accessors :
    ssh_get_issue_banner none = none ∧ ssh_get_openssh_version none = 0 :=
  ⟨rfl, rfl⟩

/-- Socket events of the C1 failing run: the socket connects, then the peer
sends the non-SSH line "hello world" followed by LF. -/
def eventsC1 : List Event :=
  [Event.connectedOk, Event.dataRecv ("hello world".toList ++ ['\x0a'])]

set_option maxRecDepth 20000 in
/-- Claim C1 (code bug): on a run whose drive loop ends with
session_state = ERROR (protocol mismatch on the banner), ssh_connect still
returns 0, contradicting the claim (and the function's own doc comment,
"SSH_ERROR on error"). -/
theorem ssh_connect_zero_after_error_state :
    (ssh_connect envC eventsC1 sInit).map Prod.fst = some 0 ∧
    (ssh_connect envC eventsC1 sInit).map (fun p => p.2.session_state) =
      some SessionState.ERROR := by
  constructor <;> rfl

set_option maxRecDepth 100000 in
/-- Claim C2 (counterexample): an input of exactly 128 bytes with no LF does
NOT fail with BANNER_TOO_LARGE: the callback returns 0 and the session is
completely unchanged. -/
theorem banner_128_no_lf_not_error :
    callback_receive_banner envC (List.replicate 128 'a') sInit = (0, sInit) ∧
    (callback_receive_banner envC (List.replicate 128 'a') sInit).2.session_state ≠
      SessionState.ERROR := by
  constructor
  · rfl
  · intro h
    rw [show (callback_receive_banner envC (List.replicate 128 'a') sInit).2 = sInit from rfl] at h
    exact absurd h (by decide)

/-- Environment of the C8 failing run: everything succeeds until dh_build_k
fails after the KEXDH_REPLY fields have been obtained. -/
def env8 : Env := { dh_build_k_rc := -1 }

/-- Session entering dh_handshake at DH_STATE_INIT for the C8 failing run. -/
def s8 : Session := {}

/-- Claim C8 (code bug): on the error exit taken when dh_build_k fails, the
signature string (modelled id 3) is zero-wiped and released, yet
session->dh_server_signature still references it afterwards: a dangling
reference to a freed ephemeral DH string remains. -/
theorem dh_error_leaves_dangling_signature :
    (dh_handshake env8 s8).1 = SSH_ERROR ∧
    (dh_handshake env8 s8).2.dh_server_signature = some 3 ∧
    3 ∉ (dh_handshake env8 s8).2.live_strings ∧
    3 ∈ (dh_handshake env8 s8).2.burned := by
  refine ⟨rfl, rfl, ?_, ?_⟩ <;> decide

/-- Disconnect environment where appending the DISCONNECT message type to the
out buffer fails (allocation failure). -/
def envD : DiscEnv := { add_u8_rc := -1 }

/-- Session with an open socket and alive = 1, before ssh_disconnect. -/
def sOpenAlive : Session := { socket_open := true, alive := 1 }

/-- Claim C9 (counterexample): when buffer_add_u8 fails while composing the
DISCONNECT message, ssh_disconnect's goto error jumps past the
`session->alive = 0;` statement and alive stays 1. -/
theorem disconnect_error_path_alive_unchanged :
    (ssh_disconnect envD sOpenAlive).alive = 1 ∧
    (ssh_disconnect envD sOpenAlive).alive ≠ 0 := by
  exact ⟨rfl, by decide⟩

/-- Claim C9 (amended): ssh_disconnect leaves alive = 0 on every exit path
except the message-composition failure paths, i.e. whenever the socket is not
open or all four composition steps succeed. -/
theorem disconnect_alive_reset (env : DiscEnv) (s : Session)
    (h : s.socket_open = false ∨
      (0 ≤ env.add_u8_rc ∧ 0 ≤ env.add_u32_rc ∧ env.str_ok = true ∧ 0 ≤ env.add_str_rc)) :
    (ssh_disconnect env s).alive = 0 := by
  unfold ssh_disconnect
  rcases h with h | ⟨h1, h2, h3, h4⟩
  · simp [h]
  · split_ifs <;> first | rfl | omega | simp_all

/-- Witness for disconnect_alive_reset at a concrete closed socket. -/
theorem disconnect_alive_reset_witness :
    (ssh_disconnect envD { sInit with socket_open := false, alive := 1 }).alive = 0 :=
  disconnect_alive_reset envD { sInit with socket_open := false, alive := 1 } (Or.inl rfl)

/-- The banner of the C5 counterexample: an OpenSSH 7.10 server. -/
def banner710 : List Char := "SSH-2.0-OpenSSH_7.10".toList

/-- Claim C5 (counterexample): for the banner "SSH-2.0-OpenSSH_7.10" the code
does not store the one-digit-field value (major 7, minor 1): strtol reads the
full digit run and stores major 7, minor 10. -/
theorem openssh_710_not_one_digit :
    (ssh_analyze_banner banner710 sInit).2.openssh ≠ spec_openssh_one_digit banner710 ∧
    spec_openssh_one_digit banner710 = SSH_VERSION_INT 7 1 0 ∧
    (ssh_analyze_banner banner710 sInit).2.openssh = SSH_VERSION_INT 7 10 0 := by
  refine ⟨?_, ?_, ?_⟩ <;> decide

/-- opensshParse changes at most the `openssh` field of the session. -/
theorem opensshParse_fields (b : List Char) (s : Session) :
    opensshParse b s = { s with openssh := (opensshParse b s).openssh } := by
  unfold opensshParse
  cases strstrIdx b needleOpenSSH <;> rfl

/-- ssh_analyze_banner changes at most the `openssh` field of the session. -/
theorem ssh_analyze_banner_fields (b : List Char) (s : Session) :
    (ssh_analyze_banner b s).2 =
      { s with openssh := (ssh_analyze_banner b s).2.openssh } := by
  unfold ssh_analyze_banner
  split_ifs <;> first | rfl | exact opensshParse_fields b s

/-- ssh_analyze_banner never changes the stored server banner. -/
theorem ssh_analyze_banner_serverbanner (b : List Char) (s : Session) :
    (ssh_analyze_banner b s).2.serverbanner = s.serverbanner := by
  unfold ssh_analyze_banner
  split_ifs <;> first | rfl | rw [opensshParse_fields b s]

/-- ssh_analyze_banner never changes the locally-enabled ssh1 flag. -/
theorem ssh_analyze_banner_ssh1 (b : List Char) (s : Session) :
    (ssh_analyze_banner b s).2.ssh1 = s.ssh1 := by
  unfold ssh_analyze_banner
  split_ifs <;> first | rfl | rw [opensshParse_fields b s]

/-- ssh_analyze_banner never changes the locally-enabled ssh2 flag. -/
theorem ssh_analyze_banner_ssh2 (b : List Char) (s : Session) :
    (ssh_analyze_banner b s).2.ssh2 = s.ssh2 := by
  unfold ssh_analyze_banner
  split_ifs <;> first | rfl | rw [opensshParse_fields b s]

/-- ssh_send_banner never touches the received server banner. -/
theorem ssh_send_banner_serverbanner (env : Env) (s : Session) :
    (ssh_send_banner env s).2.serverbanner = s.serverbanner := by
  unfold ssh_send_banner
  split_ifs <;> rfl

/-- connection_callback invoked in the BANNER_RECEIVED state never changes the
stored server banner. -/
theorem connection_callback_keeps_serverbanner (env : Env) (s : Session)
    (h : s.session_state = SessionState.BANNER_RECEIVED) :
    (connection_callback env s).serverbanner = s.serverbanner := by
  unfold connection_callback
  rw [h]
  rcases hsb : s.serverbanner with _ | b
  · exact hsb
  · rcases ha : ssh_analyze_banner b s with ⟨fl, s1⟩
    have hs1 : s1.serverbanner = s.serverbanner := by
      have hq := ssh_analyze_banner_serverbanner b s
      rw [ha] at hq
      exact hq
    dsimp only
    rw [ha]
    rcases fl with _ | ⟨r1, r2⟩
    · simpa [cc_error, hsb] using hs1
    · simp only []
      split_ifs <;>
        simp [cc_error, ssh_send_banner_serverbanner, hs1, hsb]

/-- Helper: a banner scan over bytes without LF that stays within the first
128 indices consumes nothing and leaves the session untouched (client.c
lines 101-130, no-LF path). -/
theorem crbGo_no_lf (env : Env) (rest : List Char) :
    ∀ i acc s, '\x0a' ∉ rest → i + rest.length ≤ 128 →
      crbGo env rest i acc s = (0, s) := by
  induction rest with
  | nil => intro i acc s _ _; rfl
  | cons c t ih =>
    intro i acc s hlf hlen
    have hc : c ≠ '\x0a' := fun hh => hlf (by simp [hh])
    have hcr : (if c = '\x0d' then '\x00' else c) ≠ '\x0a' := by
      split_ifs with h
      · decide
      · exact hc
    have hi : ¬ (i > 127) := by
      simp only [List.length_cons] at hlen; omega
    unfold crbGo
    rw [if_neg hcr, if_neg hi]
    exact ih (i + 1) (acc ++ [if c = '\x0d' then '\x00' else c]) s
      (fun hm => hlf (List.mem_cons_of_mem _ hm))
      (by simp only [List.length_cons] at hlen; omega)

/-- Helper: a banner scan that reaches index 128 without having seen a LF
fails with the too-large-banner error (client.c lines 121-127). -/
theorem crbGo_too_large (env : Env) (rest : List Char) :
    ∀ i acc s, '\x0a' ∉ rest → i ≤ 128 → 129 ≤ i + rest.length →
      crbGo env rest i acc s =
        (0, { s with session_state := SessionState.ERROR,
                     lastError := some "Receiving banner: too large banner" }) := by
  induction rest with
  | nil =>
    intro i acc s _ h1 h2
    exfalso
    simp only [List.length_nil] at h2
    omega
  | cons c t ih =>
    intro i acc s hlf h1 h2
    have hc : c ≠ '\x0a' := fun hh => hlf (by simp [hh])
    have hcr : (if c = '\x0d' then '\x00' else c) ≠ '\x0a' := by
      split_ifs with h
      · decide
      · exact hc
    unfold crbGo
    rw [if_neg hcr]
    by_cases hi : i > 127
    · rw [if_pos hi]
    · rw [if_neg hi]
      exact ih (i + 1) (acc ++ [if c = '\x0d' then '\x00' else c]) s
        (fun hm => hlf (List.mem_cons_of_mem _ hm)) (by omega)
        (by simp only [List.length_cons] at h2; omega)

/-- Helper: a banner scan over CR-free, LF-free bytes followed by one LF,
starting early enough, stores the line and hands the session to
connection_callback (client.c lines 109-120). -/
theorem crbGo_lf (env : Env) (dataBytes : List Char) :
    ∀ i acc s, '\x0a' ∉ dataBytes → '\x0d' ∉ dataBytes → i + dataBytes.length ≤ 127 →
      crbGo env (dataBytes ++ ['\x0a']) i acc s =
        (i + dataBytes.length + 1,
         connection_callback env
           { s with serverbanner :=
                      some ((acc ++ dataBytes).takeWhile (fun ch => ch != '\x00')),
                    session_state := SessionState.BANNER_RECEIVED }) := by
  induction dataBytes with
  | nil =>
    intro i acc s _ _ _
    simp [crbGo]
  | cons c t ih =>
    intro i acc s hlf hcr hlen
    have hc : c ≠ '\x0a' := fun hh => hlf (by simp [hh])
    have hd : c ≠ '\x0d' := fun hh => hcr (by simp [hh])
    have hcc : (if c = '\x0d' then '\x00' else c) = c := if_neg hd
    have hne : (if c = '\x0d' then '\x00' else c) ≠ '\x0a' := by rw [hcc]; exact hc
    have hi : ¬ (i > 127) := by
      simp only [List.length_cons] at hlen; omega
    show crbGo env ((c :: t) ++ ['\x0a']) i acc s = _
    rw [List.cons_append]
    unfold crbGo
    rw [if_neg hne, if_neg hi, hcc]
    rw [ih (i + 1) (acc ++ [c]) s
      (fun hm => hlf (List.mem_cons_of_mem _ hm))
      (fun hm => hcr (List.mem_cons_of_mem _ hm))
      (by simp only [List.length_cons] at hlen; omega)]
    have hsv : (acc ++ [c]) ++ t = acc ++ (c :: t) := by simp
    rw [hsv]
    simp only [Prod.mk.injEq, List.length_cons]
    exact ⟨by omega, trivial⟩

/-- Claim C3: every input of length at most 128 without a LF byte makes the
banner-receive callback return 0 (incomplete) with the session, in particular
session_state and serverbanner, unchanged. -/
theorem banner_incomplete_no_mutation (env : Env) (dataBytes : List Char)
    (s : Session) (hlen : dataBytes.length ≤ 128) (hlf : '\x0a' ∉ dataBytes) :
    callback_receive_banner env dataBytes s = (0, s) :=
  crbGo_no_lf env dataBytes 0 [] s hlf (by omega)

set_option maxRecDepth 100000 in
/-- Witness for banner_incomplete_no_mutation on 128 bytes of 'b'. -/
theorem banner_incomplete_no_mutation_witness :
    callback_receive_banner envC (List.replicate 128 'b') sInit = (0, sInit) :=
  banner_incomplete_no_mutation envC (List.replicate 128 'b') sInit
    (by decide) (by decide)

/-- Claim C2 (amended): an input of exactly 129 bytes without LF fails with
the too-large-banner error; an input of exactly 128 bytes without LF returns
0 with the session unchanged (the error only fires past index 127); an input
of 127 bytes (free of LF, CR and NUL) followed by a LF succeeds, consuming
128 bytes and storing those 127 bytes as the server banner. -/
theorem banner_boundary_129_128_127 (env : Env) (s : Session)
    (d129 d128 d127 : List Char)
    (h129l : d129.length = 129) (h129 : '\x0a' ∉ d129)
    (h128l : d128.length = 128) (h128 : '\x0a' ∉ d128)
    (h127l : d127.length = 127) (h127 : '\x0a' ∉ d127) (h127r : '\x0d' ∉ d127)
    (h127n : '\x00' ∉ d127) :
    callback_receive_banner env d129 s =
      (0, { s with session_state := SessionState.ERROR,
                   lastError := some "Receiving banner: too large banner" }) ∧
    callback_receive_banner env d128 s = (0, s) ∧
    (callback_receive_banner env (d127 ++ ['\x0a']) s).1 = 128 ∧
    (callback_receive_banner env (d127 ++ ['\x0a']) s).2.serverbanner = some d127 := by
  refine ⟨?_, ?_, ?_, ?_⟩
  · exact crbGo_too_large env d129 0 [] s h129 (by omega) (by omega)
  · exact crbGo_no_lf env d128 0 [] s h128 (by omega)
  · unfold callback_receive_banner
    rw [crbGo_lf env d127 0 [] s h127 h127r (by omega)]
    simp [h127l]
  · unfold callback_receive_banner
    rw [crbGo_lf env d127 0 [] s h127 h127r (by omega)]
    have htw : d127.takeWhile (fun ch => ch != '\x00') = d127 := by
      rw [List.takeWhile_eq_self_iff]
      intro x hx
      have : x ≠ '\x00' := fun hh => h127n (hh ▸ hx)
      simpa using this
    rw [connection_callback_keeps_serverbanner env _ rfl]
    simp [htw]

set_option maxRecDepth 400000 in
/-- Witness for banner_boundary_129_128_127 on runs of 'a', 'b' and 'c'. -/
theorem banner_boundary_129_128_127_witness :
    callback_receive_banner envC (List.replicate 129 'a') sInit =
      (0, { sInit with session_state := SessionState.ERROR,
                       lastError := some "Receiving banner: too large banner" }) ∧
    callback_receive_banner envC (List.replicate 128 'b') sInit = (0, sInit) ∧
    (callback_receive_banner envC (List.replicate 127 'c' ++ ['\x0a']) sInit).1 = 128 ∧
    (callback_receive_banner envC (List.replicate 127 'c' ++ ['\x0a']) sInit).2.serverbanner =
      some (List.replicate 127 'c') :=
  banner_boundary_129_128_127 envC sInit
    (List.replicate 129 'a') (List.replicate 128 'b') (List.replicate 127 'c')
    (by decide) (by decide) (by decide) (by decide) (by decide) (by decide)
    (by decide) (by decide)

/-- ssh_send_banner never changes the resolved protocol version. -/
theorem ssh_send_banner_version (env : Env) (s : Session) :
    (ssh_send_banner env s).2.version = s.version := by
  unfold ssh_send_banner
  split_ifs <;> rfl

/-- The nine leading characters of every banner advertising SSH 1.99. -/
def banner199 : List Char := ['S', 'S', 'H', '-', '1', '.', '9', '9', '-']

/-- Claim C4: for every received banner starting with "SSH-1.99-", the
analysis sets both the ssh1 and ssh2 out-flags, and connection_callback in
the BANNER_RECEIVED state resolves the protocol version to 2 when SSHv2 is
locally enabled, else to 1 when SSHv1 is locally enabled, and otherwise
fails into the ERROR state with the no-usable-version error. -/
theorem banner_199_version_resolution (env : Env) (s : Session) (rest : List Char)
    (hst : s.session_state = SessionState.BANNER_RECEIVED)
    (hsb : s.serverbanner = some (banner199 ++ rest)) :
    (ssh_analyze_banner (banner199 ++ rest) s).1 = some (1, 1) ∧
    (s.ssh2 ≠ 0 → (connection_callback env s).version = 2 ∧
       (connection_callback env s).session_state = SessionState.INITIAL_KEX) ∧
    (s.ssh2 = 0 → s.ssh1 ≠ 0 → (connection_callback env s).version = 1 ∧
       (connection_callback env s).session_state = SessionState.INITIAL_KEX) ∧
    (s.ssh2 = 0 → s.ssh1 = 0 →
       (connection_callback env s).session_state = SessionState.ERROR ∧
       (connection_callback env s).lastError =
         some "No version of SSH protocol usable") := by
  have hcc : ∀ P : Session → Prop,
      (∀ s1, ssh_analyze_banner (banner199 ++ rest) s = (some (1, 1), s1) →
        P (if (1 : Nat) ≠ 0 ∧ s1.ssh2 ≠ 0 then
             { (ssh_send_banner env
                 { s1 with version := 2,
                           data_callback := DataCB.PacketDispatcher }).2 with
               session_state := SessionState.INITIAL_KEX }
           else if (1 : Nat) ≠ 0 ∧ s1.ssh1 ≠ 0 then
             { (ssh_send_banner env
                 { s1 with version := 1,
                           data_callback := DataCB.PacketDispatcher }).2 with
               session_state := SessionState.INITIAL_KEX }
           else cc_error { s1 with
             lastError := some "No version of SSH protocol usable" })) →
      P (connection_callback env s) := by
    intro P hp
    unfold connection_callback
    rw [hst]
    dsimp only
    rw [hsb]
    dsimp only
    rcases ha : ssh_analyze_banner (banner199 ++ rest) s with ⟨fl, s1⟩
    have hfl : fl = some (1, 1) := by
      have hq : (ssh_analyze_banner (banner199 ++ rest) s).1 = some (1, 1) := rfl
      rw [ha] at hq
      exact hq
    subst hfl
    exact hp s1 ha
  refine ⟨rfl, ?_, ?_, ?_⟩
  · intro h2
    refine hcc (fun x => x.version = 2 ∧ x.session_state = SessionState.INITIAL_KEX)
      (fun s1 ha => ?_)
    have hss2 : s1.ssh2 = s.ssh2 := by
      have hq := ssh_analyze_banner_ssh2 (banner199 ++ rest) s
      rw [ha] at hq
      exact hq
    rw [if_pos ⟨one_ne_zero, by rwa [hss2]⟩]
    exact ⟨ssh_send_banner_version env _, rfl⟩
  · intro h2 h1
    refine hcc (fun x => x.version = 1 ∧ x.session_state = SessionState.INITIAL_KEX)
      (fun s1 ha => ?_)
    have hss2 : s1.ssh2 = s.ssh2 := by
      have hq := ssh_analyze_banner_ssh2 (banner199 ++ rest) s
      rw [ha] at hq
      exact hq
    have hss1 : s1.ssh1 = s.ssh1 := by
      have hq := ssh_analyze_banner_ssh1 (banner199 ++ rest) s
      rw [ha] at hq
      exact hq
    rw [if_neg (by rw [hss2, h2]; simp), if_pos ⟨one_ne_zero, by rwa [hss1]⟩]
    exact ⟨ssh_send_banner_version env _, rfl⟩
  · intro h2 h1
    refine hcc (fun x => x.session_state = SessionState.ERROR ∧
      x.lastError = some "No version of SSH protocol usable") (fun s1 ha => ?_)
    have hss2 : s1.ssh2 = s.ssh2 := by
      have hq := ssh_analyze_banner_ssh2 (banner199 ++ rest) s
      rw [ha] at hq
      exact hq
    have hss1 : s1.ssh1 = s.ssh1 := by
      have hq := ssh_analyze_banner_ssh1 (banner199 ++ rest) s
      rw [ha] at hq
      exact hq
    rw [if_neg (by rw [hss2, h2]; simp), if_neg (by rw [hss1, h1]; simp)]
    exact ⟨rfl, rfl⟩

/-- Session for the C4 witness: banner "SSH-1.99-x" received, SSHv2 enabled. -/
def sW4 : Session :=
  { sInit with session_state := SessionState.BANNER_RECEIVED,
               serverbanner := some (banner199 ++ ['x']) }

/-- Witness for banner_199_version_resolution with SSHv2 locally enabled. -/
theorem banner_199_version_resolution_witness :
    (connection_callback envC sW4).version = 2 ∧
    (connection_callback envC sW4).session_state = SessionState.INITIAL_KEX :=
  (banner_199_version_resolution envC sW4 ['x'] rfl rfl).2.1 (by decide)

/-- The eight leading characters of a plain SSHv2 banner. -/
def ssh20 : List Char := ['S', 'S', 'H', '-', '2', '.', '0', '-']

/-- Claim C5 (amended): for every SSHv2 banner, when "OpenSSH" occurs at
index i, the code stores SSH_VERSION_INT of the two strtol results (maximal
decimal digit runs, not one-digit fields) taken at offsets +8 and +10 from
the occurrence, and the accessor returns that value; when "OpenSSH" does not
occur, a session whose stored value is still 0 keeps accessor value 0. -/
theorem openssh_version_strtol_parse (rest : List Char) (s : Session) :
    (∀ i, strstrIdx (ssh20 ++ rest) needleOpenSSH = some i →
       ssh_get_openssh_version (some (ssh_analyze_banner (ssh20 ++ rest) s).2) =
         SSH_VERSION_INT (strtol10 ((ssh20 ++ rest).drop (i + 8))).toNat
           (strtol10 ((ssh20 ++ rest).drop (i + 10))).toNat 0) ∧
    (strstrIdx (ssh20 ++ rest) needleOpenSSH = none → s.openssh = 0 →
       ssh_get_openssh_version (some (ssh_analyze_banner (ssh20 ++ rest) s).2) = 0) := by
  have hred : (ssh_analyze_banner (ssh20 ++ rest) s).2 = opensshParse (ssh20 ++ rest) s := rfl
  constructor
  · intro i hi
    show ((ssh_analyze_banner (ssh20 ++ rest) s).2).openssh = _
    rw [hred]
    unfold opensshParse
    rw [hi]
  · intro hn h0
    show ((ssh_analyze_banner (ssh20 ++ rest) s).2).openssh = 0
    rw [hred]
    unfold opensshParse
    rw [hn]
    exact h0

/-- Witness for openssh_version_strtol_parse on "SSH-2.0-OpenSSH_7.10". -/
theorem openssh_version_strtol_parse_witness :
    ssh_get_openssh_version
        (some (ssh_analyze_banner (ssh20 ++ "OpenSSH_7.10".toList) sInit).2) =
      SSH_VERSION_INT
        (strtol10 ((ssh20 ++ "OpenSSH_7.10".toList).drop 16)).toNat
        (strtol10 ((ssh20 ++ "OpenSSH_7.10".toList).drop 18)).toNat 0 :=
  (openssh_version_strtol_parse "OpenSSH_7.10".toList sInit).1 8 (by decide)

/-- dh_cleanup never changes the DH state machine position. -/
@[simp] theorem dh_cleanup_dh_state (l : DhLocals) (s : Session) :
    (dh_cleanup l s).dh_handshake_state = s.dh_handshake_state := by
  obtain ⟨e, f, p, g⟩ := l
  unfold dh_cleanup
  cases e <;> cases f <;> cases p <;> cases g <;> rfl

/-- dh_cleanup never changes the session state. -/
@[simp] theorem dh_cleanup_session_state (l : DhLocals) (s : Session) :
    (dh_cleanup l s).session_state = s.session_state := by
  obtain ⟨e, f, p, g⟩ := l
  unfold dh_cleanup
  cases e <;> cases f <;> cases p <;> cases g <;> rfl

/-- dh_cleanup never changes the installed crypto context. -/
@[simp] theorem dh_cleanup_current_crypto (l : DhLocals) (s : Session) :
    (dh_cleanup l s).current_crypto = s.current_crypto := by
  obtain ⟨e, f, p, g⟩ := l
  unfold dh_cleanup
  cases e <;> cases f <;> cases p <;> cases g <;> rfl

/-- dh_cleanup never changes the prepared crypto context. -/
@[simp] theorem dh_cleanup_next_crypto (l : DhLocals) (s : Session) :
    (dh_cleanup l s).next_crypto = s.next_crypto := by
  obtain ⟨e, f, p, g⟩ := l
  unfold dh_cleanup
  cases e <;> cases f <;> cases p <;> cases g <;> rfl

/-- dh_cleanup never changes the crypto freshness counter. -/
@[simp] theorem dh_cleanup_crypto_next_id (l : DhLocals) (s : Session) :
    (dh_cleanup l s).crypto_next_id = s.crypto_next_id := by
  obtain ⟨e, f, p, g⟩ := l
  unfold dh_cleanup
  cases e <;> cases f <;> cases p <;> cases g <;> rfl

/-- dh_cleanup never changes the released-crypto list. -/
@[simp] theorem dh_cleanup_freed_cryptos (l : DhLocals) (s : Session) :
    (dh_cleanup l s).freed_cryptos = s.freed_cryptos := by
  obtain ⟨e, f, p, g⟩ := l
  unfold dh_cleanup
  cases e <;> cases f <;> cases p <;> cases g <;> rfl

/-- dh_cleanup never changes the stored server signature reference. -/
@[simp] theorem dh_cleanup_dh_server_signature (l : DhLocals) (s : Session) :
    (dh_cleanup l s).dh_server_signature = s.dh_server_signature := by
  obtain ⟨e, f, p, g⟩ := l
  unfold dh_cleanup
  cases e <;> cases f <;> cases p <;> cases g <;> rfl

/-- On every error exit of the INIT stage the DH state is unchanged. -/
theorem dh_init_inl_state (env : Env) (s : Session) (l : DhLocals)
    (r : Int × Session) (h : dh_init env s l = Sum.inl r) :
    r.2.dh_handshake_state = s.dh_handshake_state := by
  unfold dh_init at h
  split_ifs at h <;>
    first
      | (simp only [Sum.inl.injEq] at h
         subst h
         simp [dh_error, burnFree])
      | simp_all

/-- On the fall-through exit of the INIT stage the crypto bookkeeping is
untouched and the DH state is INIT_TO_SEND. -/
theorem dh_init_inr (env : Env) (s : Session) (l : DhLocals)
    (s1 : Session) (l1 : DhLocals) (h : dh_init env s l = Sum.inr (s1, l1)) :
    s1.dh_handshake_state = DhState.INIT_TO_SEND ∧
    s1.current_crypto = s.current_crypto ∧ s1.next_crypto = s.next_crypto ∧
    s1.crypto_next_id = s.crypto_next_id ∧ s1.freed_cryptos = s.freed_cryptos := by
  unfold dh_init at h
  split_ifs at h <;>
    first
      | (simp only [Sum.inr.injEq, Prod.mk.injEq] at h
         obtain ⟨h1, h2⟩ := h
         subst h1
         simp [burnFree])
      | simp_all

/-- On every error exit of the INIT_TO_SEND stage the DH state is unchanged. -/
theorem dh_init_to_send_inl_state (env : Env) (s : Session) (l : DhLocals)
    (r : Int × Session) (h : dh_init_to_send env s l = Sum.inl r) :
    r.2.dh_handshake_state = s.dh_handshake_state := by
  unfold dh_init_to_send at h
  split_ifs at h <;>
    first
      | (simp only [Sum.inl.injEq] at h
         subst h
         simp [dh_error, burnFree])
      | simp_all

/-- On the fall-through exit of the INIT_TO_SEND stage the crypto bookkeeping
is untouched and the DH state is INIT_SENT. -/
theorem dh_init_to_send_inr (env : Env) (s : Session) (l : DhLocals)
    (s1 : Session) (l1 : DhLocals)
    (h : dh_init_to_send env s l = Sum.inr (s1, l1)) :
    s1.dh_handshake_state = DhState.INIT_SENT ∧
    s1.current_crypto = s.current_crypto ∧ s1.next_crypto = s.next_crypto ∧
    s1.crypto_next_id = s.crypto_next_id ∧ s1.freed_cryptos = s.freed_cryptos := by
  unfold dh_init_to_send at h
  split_ifs at h <;>
    first
      | (simp only [Sum.inr.injEq, Prod.mk.injEq] at h
         obtain ⟨h1, h2⟩ := h
         subst h1
         simp [burnFree])
      | simp_all

/-- On every error exit of the INIT_SENT stage the DH state is unchanged. -/
theorem dh_init_sent_inl_state (env : Env) (s : Session) (l : DhLocals)
    (r : Int × Session) (h : dh_init_sent env s l = Sum.inl r) :
    r.2.dh_handshake_state = s.dh_handshake_state := by
  unfold dh_init_sent at h
  split_ifs at h <;>
    first
      | (simp only [Sum.inl.injEq] at h
         subst h
         simp [dh_error, burnFree])
      | simp_all

/-- On the fall-through exit of the INIT_SENT stage the crypto bookkeeping is
untouched and the DH state is NEWKEYS_TO_SEND. -/
theorem dh_init_sent_inr (env : Env) (s : Session) (l : DhLocals)
    (s1 : Session) (l1 : DhLocals) (h : dh_init_sent env s l = Sum.inr (s1, l1)) :
    s1.dh_handshake_state = DhState.NEWKEYS_TO_SEND ∧
    s1.current_crypto = s.current_crypto ∧ s1.next_crypto = s.next_crypto ∧
    s1.crypto_next_id = s.crypto_next_id ∧ s1.freed_cryptos = s.freed_cryptos := by
  unfold dh_init_sent at h
  split_ifs at h <;>
    first
      | (simp only [Sum.inr.injEq, Prod.mk.injEq] at h
         obtain ⟨h1, h2⟩ := h
         subst h1
         simp [burnFree])
      | simp_all

/-- On every error exit of the NEWKEYS_TO_SEND stage the DH state is
unchanged. -/
theorem dh_newkeys_to_send_inl_state (env : Env) (s : Session) (l : DhLocals)
    (r : Int × Session) (h : dh_newkeys_to_send env s l = Sum.inl r) :
    r.2.dh_handshake_state = s.dh_handshake_state := by
  unfold dh_newkeys_to_send at h
  split_ifs at h <;>
    first
      | (simp only [Sum.inl.injEq] at h
         subst h
         simp [dh_error, burnFree])
      | simp_all

/-- On the fall-through exit of the NEWKEYS_TO_SEND stage the crypto
bookkeeping is untouched and the DH state is NEWKEYS_SENT. -/
theorem dh_newkeys_to_send_inr (env : Env) (s : Session) (l : DhLocals)
    (s1 : Session) (l1 : DhLocals)
    (h : dh_newkeys_to_send env s l = Sum.inr (s1, l1)) :
    s1.dh_handshake_state = DhState.NEWKEYS_SENT ∧
    s1.current_crypto = s.current_crypto ∧ s1.next_crypto = s.next_crypto ∧
    s1.crypto_next_id = s.crypto_next_id ∧ s1.freed_cryptos = s.freed_cryptos := by
  unfold dh_newkeys_to_send at h
  split_ifs at h <;>
    first
      | (simp only [Sum.inr.injEq, Prod.mk.injEq] at h
         obtain ⟨h1, h2⟩ := h
         subst h1
         simp [burnFree])
      | simp_all

/-- A NEWKEYS_SENT stage run that ends in DH_STATE_FINISHED took the success
path: it returned SSH_OK, installed the previous next_crypto as
current_crypto, released the previous current_crypto (if any), and installed
a freshly allocated next_crypto. -/
theorem dh_newkeys_sent_finished (env : Env) (s : Session) (l : DhLocals)
    (hne : s.dh_handshake_state ≠ DhState.FINISHED)
    (hfin : (dh_newkeys_sent env s l).2.dh_handshake_state = DhState.FINISHED) :
    (dh_newkeys_sent env s l).1 = SSH_OK ∧
    (dh_newkeys_sent env s l).2.current_crypto = s.next_crypto ∧
    (∀ c, s.current_crypto = some c →
       c ∈ (dh_newkeys_sent env s l).2.freed_cryptos) ∧
    (dh_newkeys_sent env s l).2.next_crypto = some s.crypto_next_id := by
  unfold dh_newkeys_sent at hfin ⊢
  split_ifs at hfin ⊢ <;>
    first
      | (exact absurd (by simpa [dh_error] using hfin) hne)
      | (refine ⟨rfl, rfl, ?_, rfl⟩
         intro c0 hc0
         rw [hc0]
         simp)

/-- A run of the NEWKEYS_TO_SEND suffix that ends in FINISHED performed the
crypto swap relative to its entry session. -/
theorem dh_chain3_finished (env : Env) (s : Session) (l : DhLocals)
    (hne : s.dh_handshake_state ≠ DhState.FINISHED)
    (hfin : (dh_chain3 env s l).2.dh_handshake_state = DhState.FINISHED) :
    (dh_chain3 env s l).1 = SSH_OK ∧
    (dh_chain3 env s l).2.current_crypto = s.next_crypto ∧
    (∀ c, s.current_crypto = some c → c ∈ (dh_chain3 env s l).2.freed_cryptos) ∧
    (dh_chain3 env s l).2.next_crypto = some s.crypto_next_id := by
  unfold dh_chain3 at hfin ⊢
  rcases h0 : dh_newkeys_to_send env s l with r | ⟨s1, l1⟩
  · rw [h0] at hfin
    dsimp only at hfin ⊢
    rw [dh_newkeys_to_send_inl_state env s l r h0] at hfin
    exact absurd hfin hne
  · rw [h0] at hfin
    dsimp only at hfin ⊢
    obtain ⟨hA, hB, hC, hD, hE⟩ := dh_newkeys_to_send_inr env s l s1 l1 h0
    have hr := dh_newkeys_sent_finished env s1 l1 (by rw [hA]; exact fun hh => by cases hh) hfin
    rw [hB, hC, hD] at hr
    exact hr

/-- A run of the INIT_SENT suffix that ends in FINISHED performed the crypto
swap relative to its entry session. -/
theorem dh_chain2_finished (env : Env) (s : Session) (l : DhLocals)
    (hne : s.dh_handshake_state ≠ DhState.FINISHED)
    (hfin : (dh_chain2 env s l).2.dh_handshake_state = DhState.FINISHED) :
    (dh_chain2 env s l).1 = SSH_OK ∧
    (dh_chain2 env s l).2.current_crypto = s.next_crypto ∧
    (∀ c, s.current_crypto = some c → c ∈ (dh_chain2 env s l).2.freed_cryptos) ∧
    (dh_chain2 env s l).2.next_crypto = some s.crypto_next_id := by
  unfold dh_chain2 at hfin ⊢
  rcases h0 : dh_init_sent env s l with r | ⟨s1, l1⟩
  · rw [h0] at hfin
    dsimp only at hfin ⊢
    rw [dh_init_sent_inl_state env s l r h0] at hfin
    exact absurd hfin hne
  · rw [h0] at hfin
    dsimp only at hfin ⊢
    obtain ⟨hA, hB, hC, hD, hE⟩ := dh_init_sent_inr env s l s1 l1 h0
    have hr := dh_chain3_finished env s1 l1 (by rw [hA]; exact fun hh => by cases hh) hfin
    rw [hB, hC, hD] at hr
    exact hr

/-- A run of the INIT_TO_SEND suffix that ends in FINISHED performed the
crypto swap relative to its entry session. -/
theorem dh_chain1_finished (env : Env) (s : Session) (l : DhLocals)
    (hne : s.dh_handshake_state ≠ DhState.FINISHED)
    (hfin : (dh_chain1 env s l).2.dh_handshake_state = DhState.FINISHED) :
    (dh_chain1 env s l).1 = SSH_OK ∧
    (dh_chain1 env s l).2.current_crypto = s.next_crypto ∧
    (∀ c, s.current_crypto = some c → c ∈ (dh_chain1 env s l).2.freed_cryptos) ∧
    (dh_chain1 env s l).2.next_crypto = some s.crypto_next_id := by
  unfold dh_chain1 at hfin ⊢
  rcases h0 : dh_init_to_send env s l with r | ⟨s1, l1⟩
  · rw [h0] at hfin
    dsimp only at hfin ⊢
    rw [dh_init_to_send_inl_state env s l r h0] at hfin
    exact absurd hfin hne
  · rw [h0] at hfin
    dsimp only at hfin ⊢
    obtain ⟨hA, hB, hC, hD, hE⟩ := dh_init_to_send_inr env s l s1 l1 h0
    have hr := dh_chain2_finished env s1 l1 (by rw [hA]; exact fun hh => by cases hh) hfin
    rw [hB, hC, hD] at hr
    exact hr

/-- A run of the INIT suffix that ends in FINISHED performed the crypto swap
relative to its entry session. -/
theorem dh_chain0_finished (env : Env) (s : Session) (l : DhLocals)
    (hne : s.dh_handshake_state ≠ DhState.FINISHED)
    (hfin : (dh_chain0 env s l).2.dh_handshake_state = DhState.FINISHED) :
    (dh_chain0 env s l).1 = SSH_OK ∧
    (dh_chain0 env s l).2.current_crypto = s.next_crypto ∧
    (∀ c, s.current_crypto = some c → c ∈ (dh_chain0 env s l).2.freed_cryptos) ∧
    (dh_chain0 env s l).2.next_crypto = some s.crypto_next_id := by
  unfold dh_chain0 at hfin ⊢
  rcases h0 : dh_init env s l with r | ⟨s1, l1⟩
  · rw [h0] at hfin
    dsimp only at hfin ⊢
    rw [dh_init_inl_state env s l r h0] at hfin
    exact absurd hfin hne
  · rw [h0] at hfin
    dsimp only at hfin ⊢
    obtain ⟨hA, hB, hC, hD, hE⟩ := dh_init_inr env s l s1 l1 h0
    have hr := dh_chain1_finished env s1 l1 (by rw [hA]; exact fun hh => by cases hh) hfin
    rw [hB, hC, hD] at hr
    exact hr

/-- Claim C6: every run of dh_handshake entered before FINISHED that ends in
DH_STATE_FINISHED installs the previous next_crypto as current_crypto (object
identity as the modelled id), records the previous current_crypto (if any) as
freed, and installs a freshly allocated next_crypto distinct from both of the
previous contexts. -/
theorem dh_finished_crypto_swap (env : Env) (s : Session)
    (hwfc : ∀ c, s.current_crypto = some c → c < s.crypto_next_id)
    (hwfn : ∀ c, s.next_crypto = some c → c < s.crypto_next_id)
    (hne : s.dh_handshake_state ≠ DhState.FINISHED)
    (hfin : (dh_handshake env s).2.dh_handshake_state = DhState.FINISHED) :
    (dh_handshake env s).2.current_crypto = s.next_crypto ∧
    (∀ c, s.current_crypto = some c → c ∈ (dh_handshake env s).2.freed_cryptos) ∧
    (dh_handshake env s).2.next_crypto = some s.crypto_next_id ∧
    (dh_handshake env s).2.next_crypto ≠ s.next_crypto ∧
    (dh_handshake env s).2.next_crypto ≠ s.current_crypto := by
  have hch : (dh_handshake env s).1 = SSH_OK ∧
      (dh_handshake env s).2.current_crypto = s.next_crypto ∧
      (∀ c, s.current_crypto = some c → c ∈ (dh_handshake env s).2.freed_cryptos) ∧
      (dh_handshake env s).2.next_crypto = some s.crypto_next_id := by
    rcases hst : s.dh_handshake_state with _ | _ | _ | _ | _ | _
    · have hdh : dh_handshake env s = dh_chain0 env s {} := by
        unfold dh_handshake; rw [hst]
      rw [hdh] at hfin ⊢
      exact dh_chain0_finished env s {} hne hfin
    · have hdh : dh_handshake env s = dh_chain1 env s {} := by
        unfold dh_handshake; rw [hst]
      rw [hdh] at hfin ⊢
      exact dh_chain1_finished env s {} hne hfin
    · have hdh : dh_handshake env s = dh_chain2 env s {} := by
        unfold dh_handshake; rw [hst]
      rw [hdh] at hfin ⊢
      exact dh_chain2_finished env s {} hne hfin
    · have hdh : dh_handshake env s = dh_chain3 env s {} := by
        unfold dh_handshake; rw [hst]
      rw [hdh] at hfin ⊢
      exact dh_chain3_finished env s {} hne hfin
    · have hdh : dh_handshake env s = dh_newkeys_sent env s {} := by
        unfold dh_handshake; rw [hst]
      rw [hdh] at hfin ⊢
      exact dh_newkeys_sent_finished env s {} hne hfin
    · exact absurd hst hne
  obtain ⟨_, hB, hC, hD⟩ := hch
  refine ⟨hB, hC, hD, ?_, ?_⟩
  · rw [hD]
    intro hh
    have := hwfn s.crypto_next_id hh.symm
    omega
  · rw [hD]
    intro hh
    have := hwfc s.crypto_next_id hh.symm
    omega

/-- Session for the C6 witness: entering the DH machine at INIT with a
prepared next_crypto (id 0) and no current_crypto yet. -/
def sW6 : Session := { sInit with next_crypto := some 0, crypto_next_id := 1 }

set_option maxRecDepth 20000 in
/-- Witness for dh_finished_crypto_swap: all-success environment from
DH_STATE_INIT. -/
theorem dh_finished_crypto_swap_witness :
    (dh_handshake envC sW6).2.current_crypto = sW6.next_crypto ∧
    (∀ c, sW6.current_crypto = some c → c ∈ (dh_handshake envC sW6).2.freed_cryptos) ∧
    (dh_handshake envC sW6).2.next_crypto = some sW6.crypto_next_id ∧
    (dh_handshake envC sW6).2.next_crypto ≠ sW6.next_crypto ∧
    (dh_handshake envC sW6).2.next_crypto ≠ sW6.current_crypto :=
  dh_finished_crypto_swap envC sW6
    (fun c hc => Option.noConfusion hc)
    (fun c hc => by simp [sW6, sInit] at hc ⊢; omega)
    (by decide) (by decide)

/-- Claim C7: when host-signature verification fails with the DH machine in
NEWKEYS_SENT, dh_handshake returns SSH_ERROR with the crypto swap not
performed (current_crypto and next_crypto unchanged), the stored server
signature is wiped and released and the session field cleared, and — through
connection_callback's error label — the session ends in the ERROR state. -/
theorem dh_signature_fail_no_swap (env : Env) (s : Session) (sid : Nat)
    (hst : s.session_state = SessionState.INITIAL_KEX)
    (hver : s.version = 2)
    (hkex1 : 0 ≤ env.set_kex_rc) (hkex2 : 0 ≤ env.send_kex_rc)
    (hdh : s.dh_handshake_state = DhState.NEWKEYS_SENT)
    (hsig : s.dh_server_signature = some sid)
    (hw : env.packet_wait_newkeys_rc = SSH_OK)
    (hm : env.make_sessionid_rc = SSH_OK)
    (hca : env.crypt_set_algorithms_rc = 0)
    (hgk : 0 ≤ env.generate_session_keys_rc)
    (hsv : env.signature_verify_rc ≠ 0) :
    (dh_handshake env s).1 = SSH_ERROR ∧
    (connection_callback env s).session_state = SessionState.ERROR ∧
    (connection_callback env s).current_crypto = s.current_crypto ∧
    (connection_callback env s).next_crypto = s.next_crypto ∧
    sid ∈ (connection_callback env s).burned ∧
    sid ∉ (connection_callback env s).live_strings ∧
    (connection_callback env s).dh_server_signature = none := by
  have hdhe : dh_handshake env s =
      (SSH_ERROR, dh_cleanup { signature := some sid }
        { s with dh_server_signature := none }) := by
    have h1 : dh_handshake env s = dh_newkeys_sent env s {} := by
      unfold dh_handshake; rw [hdh]
    rw [h1]
    unfold dh_newkeys_sent
    rw [if_neg (by simp [hw]), if_neg (by simp [hm]), if_neg (by simp [hca]),
        if_neg (by omega), if_pos hsv, hsig]
    rfl
  have hcc : connection_callback env s =
      cc_error (dh_cleanup { signature := some sid }
        { s with dh_server_signature := none }) := by
    unfold connection_callback
    rw [hst]
    dsimp only
    rw [if_pos hver, if_neg (by omega), if_neg (by omega), hdhe]
    rw [if_pos (by decide : (SSH_ERROR : Int) < 0)]
    rfl
  refine ⟨by rw [hdhe], ?_, ?_, ?_, ?_, ?_, ?_⟩ <;>
    rw [hcc] <;>
    simp [cc_error, dh_cleanup, burnFree, List.mem_filter]

/-- Environment of the C7 witness: everything succeeds except the host
signature check. -/
def envW7 : Env := { signature_verify_rc := 1 }

/-- Session of the C7 witness: mid-connection, DH machine awaiting NEWKEYS,
server signature stored as string id 5. -/
def sW7 : Session :=
  { sInit with session_state := SessionState.INITIAL_KEX,
               version := 2,
               dh_handshake_state := DhState.NEWKEYS_SENT,
               dh_server_signature := some 5,
               live_strings := [5],
               next_id := 6 }

/-- Witness for dh_signature_fail_no_swap. -/
theorem dh_signature_fail_no_swap_witness :
    (dh_handshake envW7 sW7).1 = SSH_ERROR ∧
    (connection_callback envW7 sW7).session_state = SessionState.ERROR ∧
    (connection_callback envW7 sW7).current_crypto = sW7.current_crypto ∧
    (connection_callback envW7 sW7).next_crypto = sW7.next_crypto ∧
    5 ∈ (connection_callback envW7 sW7).burned ∧
    5 ∉ (connection_callback envW7 sW7).live_strings ∧
    (connection_callback envW7 sW7).dh_server_signature = none :=
  dh_signature_fail_no_swap envW7 sW7 5 rfl rfl (by decide) (by decide) rfl rfl
    rfl rfl rfl (by decide) (by decide)
